import Mathlib

/-!
Verification development for the portmatching-benchmarking corpus manager.

The Rust sources are shallowly embedded: file-system state is an explicit
`Disk` value (a map from path to file contents, where `none` means the file
is absent and a read succeeds exactly when the file is present), external
subprocesses are parameters describing their observable outcome, and
computations that can abort the process (Rust `unwrap`, `expect`, `assert`,
explicit aborts) return in the `PanicOr` monad-like wrapper.
-/

namespace Spec2Proof

/-- Outcome of a computation that may abort the process (a Rust unwrap or
assertion failure). `abort` is the aborted case, `ret a` a normal return. -/
inductive PanicOr (α : Type) where
  | abort : PanicOr α
  | ret : α → PanicOr α
deriving DecidableEq, Repr

/-- The error kinds the embedded code distinguishes: `notFound` models
`io::ErrorKind::NotFound` (both the error produced by reading an absent
file and the explicitly constructed "cannot load, file not found" error);
`other` models every other `io::Error`. -/
inductive IOErr where
  | notFound : IOErr
  | other : IOErr
deriving DecidableEq, Repr

/-- The file system: `d p = some s` means path `p` holds a file with
contents `s`; `none` means the path is absent. A read succeeds exactly
when the file is present. -/
def Disk : Type := String → Option String

/-- `struct UnsavedFile` from src/datasets.rs: a path, optional in-memory
contents, and the `is_saved` persistence flag. -/
structure UnsavedFile where
  path : String
  contents : Option String
  is_saved : Bool
deriving DecidableEq, Repr

namespace UnsavedFile

/-- `UnsavedFile::new`: no contents, not saved. -/
def new (path : String) : UnsavedFile :=
  { path := path, contents := none, is_saved := false }

/-- `UnsavedFile::exists`: the backing path is present on disk. -/
def exists_ (d : Disk) (f : UnsavedFile) : Bool :=
  (d f.path).isSome

/-- `UnsavedFile::is_empty`: no in-memory contents and no file on disk. -/
def is_empty (d : Disk) (f : UnsavedFile) : Bool :=
  f.contents.isNone && !(f.exists_ d)

/-- `UnsavedFile::save`. `writeOk` tells whether the `fs::write` call
would succeed; on success the disk gains the file. Note the code sets
`is_saved = true` before attempting the write. -/
def save (d : Disk) (writeOk : Bool) (f : UnsavedFile) :
    UnsavedFile × Disk × Except IOErr Unit :=
  if f.is_saved then (f, d, .ok ())
  else
    match f.contents with
    | none => (f, d, .ok ())
    | some c =>
      let f' := { f with is_saved := true }
      if writeOk then
        (f', fun p => if p = f.path then some c else d p, .ok ())
      else
        (f', d, .error .other)

/-- `UnsavedFile::load`. If the file is not empty, read from disk
(`fs::read_to_string`, which fails with NotFound when the file is absent,
the `?` propagating the error), store the result and mark saved; the
final `contents.ok_or(NotFound)` then returns the just-read contents in
that branch, and in the empty branch returns the (necessarily absent)
in-memory contents or the explicit NotFound error. -/
def load (d : Disk) (f : UnsavedFile) : UnsavedFile × Except IOErr String :=
  if !(f.is_empty d) then
    match d f.path with
    | some s => ({ f with contents := some s, is_saved := true }, .ok s)
    | none => (f, .error .notFound)
  else
    match f.contents with
    | some c => (f, .ok c)
    | none => (f, .error .notFound)

/-- `UnsavedFile::set_contents`: replace contents, mark unsaved. -/
def set_contents (c : String) (f : UnsavedFile) : UnsavedFile :=
  { f with contents := some c, is_saved := false }

end UnsavedFile

/-- A counterexample file: in-memory contents are set but nothing is on
disk. -/
def fileInMemOnly : UnsavedFile :=
  { path := "p", contents := some "hello", is_saved := false }

/-- The empty disk. -/
def emptyDisk : Disk := fun _ => none

/-- C3 counterexample: on a record whose in-memory contents are set
(`some "hello"`) while the backing file is absent on disk, `load()` does
not return the in-memory contents: `!is_empty()` holds (contents are set),
so the code attempts the disk read, which fails with NotFound. The claim
says `load()` should return the in-memory contents without touching the
disk and fail only when both sides are absent. -/
theorem c3_load_counterexample :
    (UnsavedFile.load emptyDisk fileInMemOnly).2 = .error .notFound := rfl

/-- C3 (amended): `load()` attempts the disk read whenever the file is
non-empty (in-memory contents set or file present on disk) — so a disk
read happens even when contents are already set, overwriting them — and
the call fails, with a NotFound error, exactly when the backing file is
absent on disk; when the file is present on disk, `load()` returns the
disk contents and marks the record persisted, regardless of in-memory
state. -/
theorem c3_load_amended (d : Disk) (f : UnsavedFile) :
    ((UnsavedFile.load d f).2 = .error .notFound ↔ d f.path = none) ∧
    (∀ s, d f.path = some s →
      UnsavedFile.load d f =
        ({ f with contents := some s, is_saved := true }, .ok s)) := by
  constructor
  · unfold UnsavedFile.load UnsavedFile.is_empty UnsavedFile.exists_
    cases hd : d f.path with
    | none =>
      cases hc : f.contents with
      | none => simp [hd, hc]
      | some c => simp [hd, hc]
    | some s => simp [hd]
  · intro s hs
    unfold UnsavedFile.load UnsavedFile.is_empty UnsavedFile.exists_
    simp [hs]

/-- C3 witness: on a disk holding `"x"` at path `"p"` and a record with
no in-memory contents, `load()` returns the disk contents and marks the
record persisted. -/
theorem c3_load_witness :
    UnsavedFile.load (fun _ => some "x") (UnsavedFile.new "p") =
      ({ path := "p", contents := some "x", is_saved := true }, .ok "x") :=
  (c3_load_amended (fun _ => some "x") (UnsavedFile.new "p")).2 "x" rfl

/-- C10: `save()` sets `is_saved` before attempting the disk write, so
when the write fails the error is returned but the record stays marked
saved, and every later `save()` on that record returns `Ok` immediately
without writing: the contents never reach the disk through `save()`. -/
theorem c10_save_not_atomic (d : Disk) (f : UnsavedFile) (c : String)
    (hc : f.contents = some c) (hns : f.is_saved = false) :
    (UnsavedFile.save d false f).2.2 = .error .other ∧
    (UnsavedFile.save d false f).1.is_saved = true ∧
    (∀ w, UnsavedFile.save d w (UnsavedFile.save d false f).1 =
      ((UnsavedFile.save d false f).1, d, .ok ())) ∧
    (UnsavedFile.save d false f).2.1 = d := by
  obtain ⟨p, co, sv⟩ := f
  simp only at hc hns
  subst hc hns
  refine ⟨rfl, rfl, ?_, rfl⟩
  intro w
  simp [UnsavedFile.save]

/-- C10 witness: a concrete record whose first save fails: it is marked
saved, the disk is unchanged, and the retried save is a successful no-op. -/
theorem c10_save_witness :
    (UnsavedFile.save emptyDisk false fileInMemOnly).2.2 = .error .other ∧
    (UnsavedFile.save emptyDisk false fileInMemOnly).1.is_saved = true ∧
    (∀ w, UnsavedFile.save emptyDisk w
        (UnsavedFile.save emptyDisk false fileInMemOnly).1 =
      ((UnsavedFile.save emptyDisk false fileInMemOnly).1, emptyDisk, .ok ())) ∧
    (UnsavedFile.save emptyDisk false fileInMemOnly).2.1 = emptyDisk :=
  c10_save_not_atomic emptyDisk fileInMemOnly "hello" rfl rfl

/-- Whether an `Except` value is a success. -/
def exceptIsOk {ε α : Type} : Except ε α → Bool
  | .ok _ => true
  | .error _ => false

/-- Observable outcome of one external converter subprocess run
(`Command::output()` in src/utils/qasm_conversion.rs, when the process
could be spawned): `status` is the exit status and `stdout_utf8` is the
UTF-8 decoding of its standard output bytes, `none` when they are not
valid UTF-8. -/
structure ProcOutput where
  status : Int
  stdout_utf8 : Option String
deriving DecidableEq, Repr

/-- A model of one converter script: for each input text, the outcome of
spawning and running the script on it (`.error` when the spawn itself
fails). -/
def ConvProc : Type := String → Except IOErr ProcOutput

/-- `qasm_to_json` from src/utils/qasm_conversion.rs: run the converter
script on the QASM text, then `String::from_utf8(output.stdout)`, mapping
a UTF-8 decoding failure into an `io::Error`. The exit status of the
process is never inspected. -/
def qasm_to_json (run : ConvProc) (qasm : String) : Except IOErr String :=
  match run qasm with
  | .error e => .error e
  | .ok out =>
    match out.stdout_utf8 with
    | some s => .ok s
    | none => .error .other

/-- `json_to_qasm` from src/utils/qasm_conversion.rs: same shape as
`qasm_to_json`, running the opposite-direction script. -/
def json_to_qasm (run : ConvProc) (json : String) : Except IOErr String :=
  match run json with
  | .error e => .error e
  | .ok out =>
    match out.stdout_utf8 with
    | some s => .ok s
    | none => .error .other

/-- C4 counterexample: a converter subprocess that runs and exits with
the non-zero status 1 and an empty (valid-UTF-8) standard output is
accepted as a success: `qasm_to_json` returns `Ok("")`, not an error.
The claim says a non-zero exit status yields an error. -/
theorem c4_conversion_counterexample :
    qasm_to_json (fun _ => .ok ⟨1, some ""⟩) "creg c" = .ok "" := rfl

/-- C4 (amended): a conversion call returns an error exactly when the
subprocess cannot be spawned (the spawn error is propagated) or its
standard output is not valid UTF-8; the exit status is never examined,
so a converter that fails with a non-zero status but produces valid
UTF-8 output is silently accepted as success. -/
theorem c4_conversion_amended (run : ConvProc) (s : String) :
    (exceptIsOk (qasm_to_json run s) = true ↔
      ∃ out, run s = .ok out ∧ out.stdout_utf8.isSome = true) ∧
    (exceptIsOk (json_to_qasm run s) = true ↔
      ∃ out, run s = .ok out ∧ out.stdout_utf8.isSome = true) ∧
    (∀ st st' o, qasm_to_json (fun _ => .ok ⟨st, o⟩) s
               = qasm_to_json (fun _ => .ok ⟨st', o⟩) s) ∧
    (∀ e, run s = .error e → qasm_to_json run s = .error e ∧
                             json_to_qasm run s = .error e) := by
  refine ⟨?_, ?_, ?_, ?_⟩
  · unfold qasm_to_json
    cases hr : run s with
    | error e => simp [hr, exceptIsOk]
    | ok out =>
      cases ho : out.stdout_utf8 with
      | none => simp [ho, exceptIsOk, hr]
      | some t => simp [ho, exceptIsOk, hr]
  · unfold json_to_qasm
    cases hr : run s with
    | error e => simp [hr, exceptIsOk]
    | ok out =>
      cases ho : out.stdout_utf8 with
      | none => simp [ho, exceptIsOk, hr]
      | some t => simp [ho, exceptIsOk, hr]
  · intro st st' o
    cases o <;> rfl
  · intro e he
    unfold qasm_to_json json_to_qasm
    rw [he]
    exact ⟨rfl, rfl⟩

/-- C4 witness: a spawn failure is propagated as an error by both
conversion directions. -/
theorem c4_conversion_witness :
    qasm_to_json (fun _ => .error .other) "x" = .error .other ∧
    json_to_qasm (fun _ => .error .other) "x" = .error .other :=
  (c4_conversion_amended (fun _ => .error .other) "x").2.2.2 .other rfl

/-- `struct QasmAndJson` from src/datasets.rs: the two sibling encodings
of one circuit. -/
structure QasmAndJson where
  qasm : UnsavedFile
  json : UnsavedFile
deriving DecidableEq, Repr

namespace QasmAndJson

/-- `QasmAndJson::from_path`: the `.qasm` and `.json` files sharing the
given stem (`path.with_extension`). -/
def from_path (stem : String) : QasmAndJson :=
  { qasm := UnsavedFile.new (stem ++ ".qasm"),
    json := UnsavedFile.new (stem ++ ".json") }

/-- `QasmAndJson::qasm()`: the in-memory QASM contents, if set. -/
def qasmContents (r : QasmAndJson) : Option String := r.qasm.contents

/-- `QasmAndJson::json()`: the in-memory JSON contents, if set. -/
def jsonContents (r : QasmAndJson) : Option String := r.json.contents

/-- `QasmAndJson::needs_conversion`: at least one encoding is empty. -/
def needs_conversion (d : Disk) (r : QasmAndJson) : Bool :=
  r.qasm.is_empty d || r.json.is_empty d

/-- `QasmAndJson::load` from src/datasets.rs: if the QASM side is empty,
load the JSON side and derive QASM via `json_to_qasm`; else if the JSON
side is empty, load QASM and derive JSON via `qasm_to_json`; else load
both directly (JSON first, then QASM), each `?` propagating the first
error. `j2q` and `q2j` are the two converter invocations. -/
def load (d : Disk) (j2q q2j : String → Except IOErr String)
    (r : QasmAndJson) : QasmAndJson × Except IOErr Unit :=
  if r.qasm.is_empty d then
    match UnsavedFile.load d r.json with
    | (json', .error e) => ({ r with json := json' }, .error e)
    | (json', .ok s) =>
      match j2q s with
      | .error e => ({ r with json := json' }, .error e)
      | .ok qs =>
        ({ qasm := r.qasm.set_contents qs, json := json' }, .ok ())
  else if r.json.is_empty d then
    match UnsavedFile.load d r.qasm with
    | (qasm', .error e) => ({ r with qasm := qasm' }, .error e)
    | (qasm', .ok s) =>
      match q2j s with
      | .error e => ({ r with qasm := qasm' }, .error e)
      | .ok js =>
        ({ qasm := qasm', json := r.json.set_contents js }, .ok ())
  else
    match UnsavedFile.load d r.json with
    | (json', .error e) => ({ r with json := json' }, .error e)
    | (json', .ok _) =>
      match UnsavedFile.load d r.qasm with
      | (qasm', .error e) => ({ qasm := qasm', json := json' }, .error e)
      | (qasm', .ok _) => ({ qasm := qasm', json := json' }, .ok ())

/-- `QasmAndJson::save`: save the QASM side, `?`-propagating its error,
then save the JSON side. `wq`/`wj` are the write outcomes for the two
files. -/
def save (d : Disk) (wq wj : Bool) (r : QasmAndJson) :
    QasmAndJson × Disk × Except IOErr Unit :=
  match UnsavedFile.save d wq r.qasm with
  | (qasm', d', .error e) => ({ r with qasm := qasm' }, d', .error e)
  | (qasm', d', .ok _) =>
    match UnsavedFile.save d' wj r.json with
    | (json', d'', res) => ({ qasm := qasm', json := json' }, d'', res)

/-- `QasmAndJson::valid_pattern` from src/datasets.rs: `parse` models
`load_tk1_json_str` (`none` = deserialization failure) and `compile`
models `CircuitPattern::try_from_circuit(..).is_ok()`. When the JSON
contents are unset, return false; otherwise the parse result is
`unwrap()`ed — a parse failure aborts the process — and the compile
outcome is returned. -/
def valid_pattern {C : Type} (parse : String → Option C)
    (compile : C → Bool) (r : QasmAndJson) : PanicOr Bool :=
  match r.json.contents with
  | none => .ret false
  | some j =>
    match parse j with
    | none => .abort
    | some circ => .ret (compile circ)

end QasmAndJson

/-- A record whose JSON contents are set to a text the parser rejects. -/
def recBadJson : QasmAndJson :=
  { qasm := UnsavedFile.new "r.qasm",
    json := { path := "r.json", contents := some "bad", is_saved := false } }

/-- C1 counterexample: on a record whose JSON contents are set to a text
that fails to deserialize (the parser returns `none`), `valid_pattern()`
aborts the process (the `unwrap()` on `load_tk1_json_str`) instead of
returning false: a parse failure is fatal, not a silent exclusion. -/
theorem c1_valid_pattern_counterexample :
    QasmAndJson.valid_pattern (fun _ : String => (none : Option Unit))
      (fun _ => true) recBadJson = .abort ∧
    QasmAndJson.valid_pattern (fun _ : String => (none : Option Unit))
      (fun _ => true) recBadJson ≠ .ret false := by
  exact ⟨rfl, by decide⟩

/-- C1 (amended): `valid_pattern()` returns false when the in-memory
JSON contents are unset, and returns the compile outcome (false on a
compile failure) when the JSON parses; but when the JSON text fails to
deserialize, the call aborts the program instead of returning false. -/
theorem c1_valid_pattern_amended {C : Type} (parse : String → Option C)
    (compile : C → Bool) (r : QasmAndJson) :
    (r.json.contents = none →
      QasmAndJson.valid_pattern parse compile r = .ret false) ∧
    (∀ j, r.json.contents = some j → parse j = none →
      QasmAndJson.valid_pattern parse compile r = .abort) ∧
    (∀ j c, r.json.contents = some j → parse j = some c →
      QasmAndJson.valid_pattern parse compile r = .ret (compile c)) := by
  refine ⟨?_, ?_, ?_⟩
  · intro h
    simp [QasmAndJson.valid_pattern, h]
  · intro j hj hp
    simp [QasmAndJson.valid_pattern, hj, hp]
  · intro j c hj hp
    simp [QasmAndJson.valid_pattern, hj, hp]

/-- C1 witness: a record whose JSON parses to a circuit that fails to
compile into a pattern yields false (the record is excluded, no abort). -/
theorem c1_valid_pattern_witness :
    QasmAndJson.valid_pattern (fun s : String => some s)
      (fun _ => false) recBadJson = .ret false :=
  (c1_valid_pattern_amended (fun s : String => some s)
    (fun _ => false) recBadJson).2.2 "bad" "bad" rfl rfl

/-- Auxiliary: a successful `UnsavedFile::load` leaves the returned
record's contents set to the returned string. -/
theorem unsavedLoad_ok_contents (d : Disk) (f f' : UnsavedFile)
    (c : String) (h : UnsavedFile.load d f = (f', .ok c)) :
    f'.contents = some c := by
  unfold UnsavedFile.load at h
  split at h
  · cases hd : d f.path with
    | some s =>
      rw [hd] at h
      cases h
      rfl
    | none =>
      rw [hd] at h
      cases h
  · cases hc : f.contents with
    | some s =>
      rw [hc] at h
      cases h
      exact hc
    | none =>
      rw [hc] at h
      cases h

/-- C9: whenever `QasmAndJson::load` returns `Ok`, both encodings have
their in-memory contents set — in the derive branches one side is loaded
and the other synthesized by `set_contents`, and in the both-present
branch both sides are loaded — so the later unconditional unwraps of
both contents in `generate()` cannot abort for loaded records. -/
theorem c9_load_both_set (d : Disk)
    (j2q q2j : String → Except IOErr String) (r r' : QasmAndJson)
    (h : QasmAndJson.load d j2q q2j r = (r', .ok ())) :
    r'.qasm.contents.isSome = true ∧ r'.json.contents.isSome = true := by
  unfold QasmAndJson.load at h
  split at h
  · cases hjl : UnsavedFile.load d r.json with
    | mk json' res =>
      rw [hjl] at h
      cases res with
      | error e => cases h
      | ok s =>
        dsimp only at h
        cases hc : j2q s with
        | error e =>
          rw [hc] at h
          cases h
        | ok qs =>
          rw [hc] at h
          cases h
          refine ⟨rfl, ?_⟩
          rw [unsavedLoad_ok_contents d r.json json' s hjl]
          rfl
  · split at h
    · cases hql : UnsavedFile.load d r.qasm with
      | mk qasm' res =>
        rw [hql] at h
        cases res with
        | error e => cases h
        | ok s =>
          dsimp only at h
          cases hc : q2j s with
          | error e =>
            rw [hc] at h
            cases h
          | ok js =>
            rw [hc] at h
            cases h
            refine ⟨?_, rfl⟩
            rw [unsavedLoad_ok_contents d r.qasm qasm' s hql]
            rfl
    · cases hjl : UnsavedFile.load d r.json with
      | mk json' res =>
        rw [hjl] at h
        cases res with
        | error e => cases h
        | ok sj =>
          cases hql : UnsavedFile.load d r.qasm with
          | mk qasm' res' =>
            rw [hql] at h
            cases res' with
            | error e => cases h
            | ok sq =>
              cases h
              constructor
              · rw [unsavedLoad_ok_contents d r.qasm qasm' sq hql]
                rfl
              · rw [unsavedLoad_ok_contents d r.json json' sj hjl]
                rfl

/-- A disk holding both encodings of the record with stem `"r"`. -/
def diskBoth : Disk := fun p =>
  if p = "r.qasm" then some "Q" else if p = "r.json" then some "J" else none

/-- C9 witness: loading a record whose two files are both on disk
succeeds and leaves both contents set. -/
theorem c9_load_both_set_witness :
    ((⟨⟨"r.qasm", some "Q", true⟩, ⟨"r.json", some "J", true⟩⟩ :
        QasmAndJson).qasm.contents.isSome = true ∧
     (⟨⟨"r.qasm", some "Q", true⟩, ⟨"r.json", some "J", true⟩⟩ :
        QasmAndJson).json.contents.isSome = true) :=
  c9_load_both_set diskBoth (fun _ => .error .other) (fun _ => .error .other)
    (QasmAndJson.from_path "r")
    ⟨⟨"r.qasm", some "Q", true⟩, ⟨"r.json", some "J", true⟩⟩ rfl

namespace Dataset

/-- The per-record load/save loop of `Dataset::generate`
(src/datasets.rs): for each record, `file.load().expect(..)` — abort on a
load error — and, when `save_files` is set, `file.save().expect(..)` —
abort on a save error. The disk is threaded through; `wOk` is the write
outcome used for the saves. Returns the loaded records in order. -/
def loadAll (j2q q2j : String → Except IOErr String)
    (save_files : Bool) (wOk : Bool) :
    List QasmAndJson → Disk → PanicOr (List QasmAndJson × Disk)
  | [], d => .ret ([], d)
  | f :: fs, d =>
    match QasmAndJson.load d j2q q2j f with
    | (_, .error _) => .abort
    | (f', .ok _) =>
      if save_files then
        match QasmAndJson.save d wOk wOk f' with
        | (_, _, .error _) => .abort
        | (f'', d', .ok _) =>
          match loadAll j2q q2j save_files wOk fs d' with
          | .abort => .abort
          | .ret (rest, d'') => .ret (f'' :: rest, d'')
      else
        match loadAll j2q q2j save_files wOk fs d with
        | .abort => .abort
        | .ret (rest, d') => .ret (f' :: rest, d')

/-- The `filter(|f| f.valid_pattern())` stage of `Dataset::generate`:
keep the records whose `valid_pattern()` returns true; a `valid_pattern`
abort (JSON parse failure) aborts the whole run. -/
def filterValid {C : Type} (parse : String → Option C) (compile : C → Bool) :
    List QasmAndJson → PanicOr (List QasmAndJson)
  | [] => .ret []
  | f :: fs =>
    match QasmAndJson.valid_pattern parse compile f with
    | .abort => .abort
    | .ret true =>
      match filterValid parse compile fs with
      | .abort => .abort
      | .ret l => .ret (f :: l)
    | .ret false => filterValid parse compile fs

/-- The `map(|f| (f.qasm.contents.unwrap(), f.json.contents.unwrap()))
.unzip()` stage of `Dataset::generate`: extract both contents of each
retained record, aborting when either is unset. -/
def unzipContents : List QasmAndJson → PanicOr (List String × List String)
  | [] => .ret ([], [])
  | f :: fs =>
    match f.qasm.contents, f.json.contents with
    | some q, some j =>
      match unzipContents fs with
      | .abort => .abort
      | .ret (qs, js) => .ret (q :: qs, j :: js)
    | _, _ => .abort

/-- `Dataset::generate` from src/datasets.rs, over the record list built
by the directory scan (one `QasmAndJson` per deduplicated basename).
Every record is loaded (and saved when `save_files`), the records are
filtered by `valid_pattern()`, the retained records' two contents are
unwrapped and unzipped into the two parallel blob payloads serialized to
`qasm.bin`/`json.bin` (modelled by returning the payload sequences), and
the length of the QASM payload is returned. The source's single
filter-map pass is staged here into `filterValid` then `unzipContents`;
the stages abort in exactly the runs where the single pass does and agree
with it on every successful result. -/
def generate {C : Type} (d : Disk) (j2q q2j : String → Except IOErr String)
    (parse : String → Option C) (compile : C → Bool)
    (save_files : Bool) (wOk : Bool) (files : List QasmAndJson) :
    PanicOr (List String × List String × Nat) :=
  match loadAll j2q q2j save_files wOk files d with
  | .abort => .abort
  | .ret (loaded, _) =>
    match filterValid parse compile loaded with
    | .abort => .abort
    | .ret retained =>
      match unzipContents retained with
      | .abort => .abort
      | .ret (qs, js) => .ret (qs, js, qs.length)

end Dataset

/-- Auxiliary: a successful `filterValid` run returns exactly the
records whose `valid_pattern()` evaluates to `ret true`, in order. -/
theorem filterValid_ret {C : Type} (parse : String → Option C)
    (compile : C → Bool) (l r : List QasmAndJson)
    (h : Dataset.filterValid parse compile l = .ret r) :
    r = l.filter
      (fun f => decide (QasmAndJson.valid_pattern parse compile f = .ret true)) := by
  induction l generalizing r with
  | nil =>
    cases h
    rfl
  | cons f fs ih =>
    unfold Dataset.filterValid at h
    cases hv : QasmAndJson.valid_pattern parse compile f with
    | abort =>
      rw [hv] at h
      cases h
    | ret b =>
      rw [hv] at h
      cases b with
      | true =>
        dsimp only at h
        cases hrec : Dataset.filterValid parse compile fs with
        | abort =>
          rw [hrec] at h
          cases h
        | ret rest =>
          rw [hrec] at h
          cases h
          simp [List.filter, hv, ih rest hrec]
      | false =>
        dsimp only at h
        simp [List.filter, hv, ih r h]

/-- Auxiliary: a successful `unzipContents` run returns the two contents
sequences of the given records, in order. -/
theorem unzipContents_ret (l : List QasmAndJson) (qs js : List String)
    (h : Dataset.unzipContents l = .ret (qs, js)) :
    qs = l.map (fun f => f.qasm.contents.getD "") ∧
    js = l.map (fun f => f.json.contents.getD "") := by
  induction l generalizing qs js with
  | nil =>
    cases h
    exact ⟨rfl, rfl⟩
  | cons f fs ih =>
    unfold Dataset.unzipContents at h
    cases hq : f.qasm.contents with
    | none =>
      rw [hq] at h
      cases hj : f.json.contents with
      | none => rw [hj] at h; cases h
      | some j => rw [hj] at h; cases h
    | some q =>
      rw [hq] at h
      cases hj : f.json.contents with
      | none => rw [hj] at h; cases h
      | some j =>
        rw [hj] at h
        dsimp only at h
        cases hrec : Dataset.unzipContents fs with
        | abort =>
          rw [hrec] at h
          cases h
        | ret p =>
          obtain ⟨qs', js'⟩ := p
          rw [hrec] at h
          cases h
          obtain ⟨h1, h2⟩ := ih qs' js' hrec
          subst h1 h2
          simp [hq, hj]

/-- C7: a successful `generate()` retains exactly the loaded records
passing `valid_pattern()` and returns their count. -/
theorem c7_generate_count {C : Type} (d : Disk)
    (j2q q2j : String → Except IOErr String) (parse : String → Option C)
    (compile : C → Bool) (sf wOk : Bool) (files : List QasmAndJson)
    (qs js : List String) (n : Nat)
    (h : Dataset.generate d j2q q2j parse compile sf wOk files =
      .ret (qs, js, n)) :
    ∃ loaded d', Dataset.loadAll j2q q2j sf wOk files d = .ret (loaded, d') ∧
      n = (loaded.filter (fun f =>
        decide (QasmAndJson.valid_pattern parse compile f = .ret true))).length := by
  unfold Dataset.generate at h
  cases hl : Dataset.loadAll j2q q2j sf wOk files d with
  | abort =>
    rw [hl] at h
    cases h
  | ret p =>
    obtain ⟨loaded, d'⟩ := p
    rw [hl] at h
    dsimp only at h
    cases hf : Dataset.filterValid parse compile loaded with
    | abort =>
      rw [hf] at h
      cases h
    | ret retained =>
      rw [hf] at h
      dsimp only at h
      cases hu : Dataset.unzipContents retained with
      | abort =>
        rw [hu] at h
        cases h
      | ret p2 =>
        obtain ⟨qs', js'⟩ := p2
        rw [hu] at h
        dsimp only at h
        cases h
        refine ⟨loaded, d', rfl, ?_⟩
        obtain ⟨hq, _⟩ := unzipContents_ret retained _ _ hu
        rw [hq, List.length_map, filterValid_ret parse compile loaded retained hf]

/-- The disk on which every path exists and holds its own name as
contents: every record loads successfully. -/
def diskSelf : Disk := fun p => some p

/-- The twelve records of the C7 example corpus. -/
def files12 : List QasmAndJson :=
  (List.range 12).map (fun i => QasmAndJson.from_path ("c" ++ toString i))

/-- The compile predicate rejecting the first three records' circuits. -/
def compile9 : String → Bool :=
  fun j => !(["c0.json", "c1.json", "c2.json"].contains j)

/-- C7 witness: on a directory of 12 circuits of which 3 fail to compile
as patterns, `generate(false)` retains exactly the 9 valid records and
returns 9. -/
theorem c7_generate_count_witness :
    ∃ loaded d',
      Dataset.loadAll (fun _ => .error .other) (fun _ => .error .other)
        false true files12 diskSelf = .ret (loaded, d') ∧
      9 = (loaded.filter (fun f =>
        decide (QasmAndJson.valid_pattern (fun s : String => some s) compile9 f
          = .ret true))).length :=
  c7_generate_count diskSelf (fun _ => .error .other) (fun _ => .error .other)
    (fun s : String => some s) compile9 false true files12
    ["c3.qasm", "c4.qasm", "c5.qasm", "c6.qasm", "c7.qasm", "c8.qasm",
     "c9.qasm", "c10.qasm", "c11.qasm"]
    ["c3.json", "c4.json", "c5.json", "c6.json", "c7.json", "c8.json",
     "c9.json", "c10.json", "c11.json"] 9 (by decide)

/-- C8: after a successful `generate()`, the two blob payloads have the
same length, and position `i` of the QASM blob and position `i` of the
JSON blob hold the two encodings of the same retained record: both
sequences are images of one list of retained records. -/
theorem c8_blob_alignment {C : Type} (d : Disk)
    (j2q q2j : String → Except IOErr String) (parse : String → Option C)
    (compile : C → Bool) (sf wOk : Bool) (files : List QasmAndJson)
    (qs js : List String) (n : Nat)
    (h : Dataset.generate d j2q q2j parse compile sf wOk files =
      .ret (qs, js, n)) :
    qs.length = js.length ∧
    ∃ retained : List QasmAndJson,
      qs = retained.map (fun f => f.qasm.contents.getD "") ∧
      js = retained.map (fun f => f.json.contents.getD "") := by
  unfold Dataset.generate at h
  cases hl : Dataset.loadAll j2q q2j sf wOk files d with
  | abort =>
    rw [hl] at h
    cases h
  | ret p =>
    obtain ⟨loaded, d'⟩ := p
    rw [hl] at h
    dsimp only at h
    cases hf : Dataset.filterValid parse compile loaded with
    | abort =>
      rw [hf] at h
      cases h
    | ret retained =>
      rw [hf] at h
      dsimp only at h
      cases hu : Dataset.unzipContents retained with
      | abort =>
        rw [hu] at h
        cases h
      | ret p2 =>
        obtain ⟨qs', js'⟩ := p2
        rw [hu] at h
        dsimp only at h
        cases h
        obtain ⟨hq, hj⟩ := unzipContents_ret retained _ _ hu
        subst hq hj
        exact ⟨by simp, retained, rfl, rfl⟩

/-- The two records of the C8 witness corpus. -/
def files2 : List QasmAndJson :=
  [QasmAndJson.from_path "a", QasmAndJson.from_path "b"]

/-- C8 witness: a concrete successful `generate()` run whose two blob
payloads are aligned images of one retained-record list. -/
theorem c8_blob_alignment_witness :
    (["a.qasm", "b.qasm"] : List String).length =
      (["a.json", "b.json"] : List String).length ∧
    ∃ retained : List QasmAndJson,
      ["a.qasm", "b.qasm"] =
        retained.map (fun f => f.qasm.contents.getD "") ∧
      ["a.json", "b.json"] =
        retained.map (fun f => f.json.contents.getD "") :=
  c8_blob_alignment diskSelf (fun _ => .error .other) (fun _ => .error .other)
    (fun s : String => some s) (fun _ => true) false true files2
    ["a.qasm", "b.qasm"] ["a.json", "b.json"] 2 (by decide)

/-- The sampling skeleton of `run_portmatching` (src/main.rs): after all
`nPatterns` corpus patterns are loaded, the loop
`for n in bench_sizes.filter(|&n| n <= all_patterns.len())` compiles the
first `n` patterns, times the match call, and pushes one elapsed sample
per tested size. `time n` is the duration measured at prefix size `n`. -/
def run_portmatching (bench_sizes : List Nat) (nPatterns : Nat)
    (time : Nat → Nat) : List Nat :=
  (bench_sizes.filter (fun n => decide (n ≤ nPatterns))).foldl
    (fun acc n => acc ++ [time n]) []

/-- The sampling skeleton of `run_quartz` (src/main.rs): the loop
`for n in bench_sizes.filter(|&n| n <= n_xfers as usize)` times the
native `pattern_match` call and pushes one sample per tested size. -/
def run_quartz (bench_sizes : List Nat) (n_xfers : Nat)
    (time : Nat → Nat) : List Nat :=
  (bench_sizes.filter (fun n => decide (n ≤ n_xfers))).foldl
    (fun acc n => acc ++ [time n]) []

/-- Auxiliary: pushing one image per element onto an accumulator is
`map`. -/
theorem foldl_push_eq_map (f : Nat → Nat) (l : List Nat) :
    ∀ acc : List Nat,
      l.foldl (fun acc n => acc ++ [f n]) acc = acc ++ l.map f := by
  induction l with
  | nil => intro acc; simp
  | cons x xs ih =>
    intro acc
    simp [List.foldl_cons, ih (acc ++ [f x])]

/-- The benchmark sizes requested in the C5 example: 200, 400, …, 5000. -/
def sizes25 : List Nat := (List.range 25).map (fun i => 200 * (i + 1))

/-- C5: both engines produce exactly one timing sample per requested
size not exceeding the corpus pattern count, in the requested order
(the sample list is the image of the kept sizes); in particular with a
5000-pattern corpus and requested sizes 200, 400, …, 5000 exactly 25
samples are produced, and a requested size of 6000 yields no sample. -/
theorem c5_bench_sizes (bench_sizes : List Nat) (k : Nat) (time : Nat → Nat) :
    run_portmatching bench_sizes k time =
      (bench_sizes.filter (fun n => decide (n ≤ k))).map time ∧
    run_quartz bench_sizes k time =
      (bench_sizes.filter (fun n => decide (n ≤ k))).map time ∧
    (run_portmatching sizes25 5000 time).length = 25 ∧
    run_portmatching [6000] 5000 time = [] ∧
    (run_quartz sizes25 5000 time).length = 25 ∧
    run_quartz [6000] 5000 time = [] := by
  have hp : ∀ (l : List Nat) (m : Nat),
      run_portmatching l m time = (l.filter (fun n => decide (n ≤ m))).map time := by
    intro l m
    unfold run_portmatching
    simpa using foldl_push_eq_map time (l.filter (fun n => decide (n ≤ m))) []
  have hq : ∀ (l : List Nat) (m : Nat),
      run_quartz l m time = (l.filter (fun n => decide (n ≤ m))).map time := by
    intro l m
    unfold run_quartz
    simpa using foldl_push_eq_map time (l.filter (fun n => decide (n ≤ m))) []
  refine ⟨hp bench_sizes k, hq bench_sizes k, ?_, ?_, ?_, ?_⟩
  · rw [hp, List.length_map]
    decide
  · rw [hp]
    rfl
  · rw [hq, List.length_map]
    decide
  · rw [hq]
    rfl

/-- `enum Gate` from src/datasets/random.rs. -/
inductive Gate where
  | Cx : Nat → Nat → Gate
  | H : Nat → Gate
  | T : Nat → Gate
  | Invalid : Gate
deriving DecidableEq, Repr

/-- `Gate::is_valid`: `Invalid` is not valid, a CX gate needs distinct
operands, single-qubit gates are always valid. -/
def Gate.is_valid : Gate → Bool
  | .Invalid => false
  | .Cx a b => a != b
  | _ => true

/-- The union-find structure (`QuickUnionUf<UnionBySize>` from the
external `union_find` crate), modelled by its contract as the
representative map it computes: `find` returns the representative and
`union a b` merges the class of `b` into the class of `a`. The crate's
union-by-size policy only changes which representative survives a merge,
not the classes themselves, so the `all_equal` test over `find` values
is unaffected by this choice. -/
def UF : Type := Nat → Nat

/-- `QuickUnionUf::new(n)`: every element is its own representative. -/
def UF.init : UF := id

/-- `UnionFind::find`. -/
def UF.find (r : UF) (x : Nat) : Nat := r x

/-- `UnionFind::union`: merge the class of `b` into the class of `a`. -/
def UF.union (r : UF) (a b : Nat) : UF :=
  fun x => if r x = r b then r a else r x

/-- The QASM header written by `random_circuit` (the raw string starts
with a newline). -/
def qasmHeader (n_qubits : Nat) : String :=
  "\nOPENQASM 2.0;\ninclude \"qelib1.inc\";\nqreg q[" ++ toString n_qubits
    ++ "];"

/-- One iteration of the gate loop in `random_circuit`: a CX gate unions
its operands in the union-find and appends its text, single-qubit gates
append their text, and the `Invalid` placeholder hits the unreachable
branch and aborts. -/
def applyGate (acc : UF × String) : Gate → PanicOr (UF × String)
  | .Cx a b => .ret (acc.1.union a b,
      acc.2 ++ "cx q[" ++ toString a ++ "],q[" ++ toString b ++ "];\n")
  | .H a => .ret (acc.1, acc.2 ++ "h q[" ++ toString a ++ "];\n")
  | .T a => .ret (acc.1, acc.2 ++ "t q[" ++ toString a ++ "];\n")
  | .Invalid => .abort

/-- The gate loop of `random_circuit`, folded over the drawn gates. -/
def buildGates : List Gate → UF × String → PanicOr (UF × String)
  | [], acc => .ret acc
  | g :: gs, acc =>
    match applyGate acc g with
    | .abort => .abort
    | .ret acc' => buildGates gs acc'

/-- `Itertools::all_equal`: every element of the list is equal (true for
the empty and singleton lists). -/
def allEqual : List Nat → Bool
  | [] => true
  | x :: xs => xs.all (fun y => y == x)

/-- `random_circuit` from src/datasets/random.rs, over the drawn gate
sequence `gates` (the `(0..n_gates).map(|_| Gate::random(..))` draws, so
`gates.length` is the call's `n_gates`): assert
`n_qubits <= n_gates + 1` (abort on violation), run the gate loop
building the QASM text and the union-find, then return the text only if
all qubits map to one `find` representative, else `None`. -/
def random_circuit (n_qubits : Nat) (gates : List Gate) :
    PanicOr (Option String) :=
  if n_qubits ≤ gates.length + 1 then
    match buildGates gates (UF.init, qasmHeader n_qubits) with
    | .abort => .abort
    | .ret (uf, qasm) =>
      .ret (if allEqual ((List.range n_qubits).map (fun i => uf.find i))
            then some qasm else none)
  else .abort

/-- The mutable state of the `unpack` loop of `RandomDataset`
(src/datasets/random.rs): `seen` is `seen_circs`, `written` the circuit
texts written to files so far, `n_circs` and `n_iter` the two counters,
`idx` the number of `random_circuit` calls made so far (indexing the
draw stream). -/
structure UnpackState where
  seen : List String
  written : List String
  n_circs : Nat
  n_iter : Nat
  idx : Nat
deriving DecidableEq, Repr

/-- Outcome of running the `unpack` loop for a bounded number of
iterations: `done` with the written circuits on reaching the target
count, `aborted` on a panic (retry budget exceeded or an abort inside
`random_circuit`), `fuelOut` when the loop is still running after the
given number of iterations. -/
inductive UnpackResult where
  | done : List String → UnpackResult
  | aborted : UnpackResult
  | fuelOut : UnpackResult
deriving DecidableEq, Repr

/-- The `unpack` loop of `RandomDataset` (src/datasets/random.rs):
`draws i` is the gate sequence drawn by the `i`-th `random_circuit`
call. A connectivity-rejected draw (`None`) hits `continue`, which skips
the `n_iter` increment and the budget check; an accepted draw is written
(and counted) only if unseen; reaching `n_circuits` breaks; otherwise
`n_iter` is incremented and the loop aborts when it exceeds
`10 * n_circuits`. -/
def unpackLoop (n_circuits n_qubits : Nat) (draws : Nat → List Gate) :
    Nat → UnpackState → UnpackResult
  | 0, _ => .fuelOut
  | fuel + 1, s =>
    match random_circuit n_qubits (draws s.idx) with
    | .abort => .aborted
    | .ret none =>
      unpackLoop n_circuits n_qubits draws fuel { s with idx := s.idx + 1 }
    | .ret (some qasm) =>
      if qasm ∈ s.seen then
        if s.n_iter + 1 > 10 * n_circuits then .aborted
        else unpackLoop n_circuits n_qubits draws fuel
          { s with n_iter := s.n_iter + 1, idx := s.idx + 1 }
      else
        let s' : UnpackState :=
          { seen := qasm :: s.seen, written := s.written ++ [qasm],
            n_circs := s.n_circs + 1, n_iter := s.n_iter, idx := s.idx }
        if s'.n_circs = n_circuits then .done s'.written
        else if s.n_iter + 1 > 10 * n_circuits then .aborted
        else unpackLoop n_circuits n_qubits draws fuel
          { s' with n_iter := s.n_iter + 1, idx := s.idx + 1 }

/-- The initial state of one `unpack` run. -/
def initState : UnpackState :=
  { seen := [], written := [], n_circs := 0, n_iter := 0, idx := 0 }

/-- A draw stream every element of which is connectivity-rejected for 2
qubits: a single H gate never connects the two qubits. -/
def drawsAllH : Nat → List Gate := fun _ => [Gate.H 0]

/-- A draw stream with 11 connectivity-rejected draws followed by
accepted draws. -/
def drawsLate : Nat → List Gate :=
  fun i => if i < 11 then [Gate.H 0] else [Gate.Cx 0 1]

/-- Auxiliary for C2: under the all-rejected draw stream the loop runs
forever — every iteration takes the `continue` path, leaving every field
but `idx` unchanged and never touching the retry counter. -/
theorem unpack_allH_runs_forever :
    ∀ fuel idx, unpackLoop 1 2 drawsAllH fuel
      { seen := [], written := [], n_circs := 0, n_iter := 0, idx := idx }
      = .fuelOut := by
  intro fuel
  induction fuel with
  | zero => intro idx; rfl
  | succ n ih =>
    intro idx
    have h1 : random_circuit 2 (drawsAllH idx) = .ret none := rfl
    simp only [unpackLoop, h1]
    exact ih (idx + 1)

/-- C2: the retry budget does not bound the total number of generation
attempts, because the `continue` on a connectivity-rejected draw skips
the `n_iter` increment and its check. First conjunct: with
`n_circuits = 1` a run that makes 12 draw attempts (11 rejected, then
one accepted) completes successfully even though 12 > 10 × 1 attempts
occurred, instead of failing fatally as the claim states. Second
conjunct: under a draw stream whose every circuit is rejected, the loop
neither completes nor aborts after any number of iterations — `unpack`
need not terminate at all. -/
theorem c2_retry_budget_bug :
    unpackLoop 1 2 drawsLate 12 initState =
      .done [qasmHeader 2 ++ "cx q[0],q[1];\n"] ∧
    (∀ fuel, unpackLoop 1 2 drawsAllH fuel initState = .fuelOut) := by
  constructor
  · decide
  · intro fuel
    exact unpack_allH_runs_forever fuel 0

/-- The edges of the qubit connectivity graph: one edge per two-qubit
entangling (CX) gate of the sequence. -/
def cxEdges : List Gate → List (Nat × Nat)
  | [] => []
  | .Cx a b :: gs => (a, b) :: cxEdges gs
  | _ :: gs => cxEdges gs

/-- Adjacency in the (undirected) CX graph. -/
def adjOf (es : List (Nat × Nat)) (x y : Nat) : Prop :=
  (x, y) ∈ es ∨ (y, x) ∈ es

/-- All `n` qubits lie in a single connected component of the graph with
edge list `es`. -/
def ConnectedOn (n : Nat) (es : List (Nat × Nat)) : Prop :=
  ∀ i, i < n → ∀ j, j < n → Relation.EqvGen (adjOf es) i j

/-- Auxiliary: the union-find built by the gate loop is the fold of
`union` over the CX edges (single-qubit gates do not touch it). -/
theorem buildGates_uf (gates : List Gate) :
    ∀ (uf : UF) (s : String) (uf' : UF) (s' : String),
      buildGates gates (uf, s) = .ret (uf', s') →
      uf' = (cxEdges gates).foldl (fun u e => UF.union u e.1 e.2) uf := by
  induction gates with
  | nil =>
    intro uf s uf' s' h
    cases h
    rfl
  | cons g gs ih =>
    intro uf s uf' s' h
    cases g with
    | Cx a b =>
      dsimp only [buildGates, applyGate] at h
      simpa [cxEdges] using ih _ _ _ _ h
    | H a =>
      dsimp only [buildGates, applyGate] at h
      simpa [cxEdges] using ih _ _ _ _ h
    | T a =>
      dsimp only [buildGates, applyGate] at h
      simpa [cxEdges] using ih _ _ _ _ h
    | Invalid =>
      dsimp only [buildGates, applyGate] at h
      cases h

/-- Auxiliary soundness of the union-find: folding `union` over a list
of edges keeps every element equivalent (under the equivalence closure
of the adjacency) to its representative. -/
theorem uf_fold_sound (adj : Nat → Nat → Prop) :
    ∀ (es : List (Nat × Nat)) (r : UF),
      (∀ e ∈ es, adj e.1 e.2) →
      (∀ x, Relation.EqvGen adj x (r x)) →
      ∀ x, Relation.EqvGen adj x
        (es.foldl (fun u e => UF.union u e.1 e.2) r x) := by
  intro es
  induction es with
  | nil =>
    intro r _ hr x
    simpa using hr x
  | cons e rest ih =>
    intro r hes hr x
    have hadj : adj e.1 e.2 := hes e (by simp)
    have hstep : ∀ y, Relation.EqvGen adj y (UF.union r e.1 e.2 y) := by
      intro y
      unfold UF.union
      by_cases hy : r y = r e.2
      · rw [if_pos hy]
        have h1 : Relation.EqvGen adj y (r e.2) := hy ▸ hr y
        have h2 : Relation.EqvGen adj (r e.2) e.2 :=
          Relation.EqvGen.symm _ _ (hr e.2)
        have h3 : Relation.EqvGen adj e.2 e.1 :=
          Relation.EqvGen.symm _ _ (Relation.EqvGen.rel _ _ hadj)
        exact Relation.EqvGen.trans _ _ _
          (Relation.EqvGen.trans _ _ _ (Relation.EqvGen.trans _ _ _ h1 h2) h3)
          (hr e.1)
      · rw [if_neg hy]
        exact hr y
    have hres := ih (UF.union r e.1 e.2)
      (fun e' he' => hes e' (by simp [he'])) hstep x
    simpa using hres

/-- Auxiliary: `all_equal` makes any two members of the list equal. -/
theorem allEqual_mem_eq (l : List Nat) (h : allEqual l = true) :
    ∀ x ∈ l, ∀ y ∈ l, x = y := by
  cases l with
  | nil => intro x hx; cases hx
  | cons a as =>
    intro x hx y hy
    unfold allEqual at h
    rw [List.all_eq_true] at h
    have hx' : x = a := by
      rcases List.mem_cons.mp hx with h1 | h1
      · exact h1
      · simpa using h x h1
    have hy' : y = a := by
      rcases List.mem_cons.mp hy with h1 | h1
      · exact h1
      · simpa using h y h1
    rw [hx', hy']

/-- Auxiliary for C6, first half: a circuit accepted by `random_circuit`
has all `n_qubits` qubits in one connected component of its CX graph. -/
theorem random_circuit_connected (n_qubits : Nat) (gates : List Gate)
    (q : String) (h : random_circuit n_qubits gates = .ret (some q)) :
    ConnectedOn n_qubits (cxEdges gates) := by
  unfold random_circuit at h
  split at h
  · cases hb : buildGates gates (UF.init, qasmHeader n_qubits) with
    | abort =>
      rw [hb] at h
      cases h
    | ret acc =>
      obtain ⟨uf, qasm⟩ := acc
      rw [hb] at h
      dsimp only at h
      split at h
      · rename_i hall
        have huf := buildGates_uf gates UF.init (qasmHeader n_qubits) uf qasm hb
        have hsound : ∀ x, Relation.EqvGen (adjOf (cxEdges gates)) x (uf x) := by
          rw [huf]
          refine uf_fold_sound (adjOf (cxEdges gates)) (cxEdges gates) UF.init
            ?_ ?_
          · intro e he
            left
            simpa using he
          · intro x
            exact Relation.EqvGen.refl x
        intro i hi j hj
        have hmem : ∀ k, k < n_qubits →
            UF.find uf k ∈ (List.range n_qubits).map (fun i => uf.find i) := by
          intro k hk
          exact List.mem_map_of_mem _ (List.mem_range.mpr hk)
        have heq : uf i = uf j :=
          allEqual_mem_eq _ hall _ (hmem i hi) _ (hmem j hj)
        have h1 : Relation.EqvGen (adjOf (cxEdges gates)) i (uf i) := hsound i
        have h2 : Relation.EqvGen (adjOf (cxEdges gates)) (uf j) j :=
          Relation.EqvGen.symm _ _ (hsound j)
        exact Relation.EqvGen.trans _ _ _ h1 (heq ▸ h2)
      · cases h
  · cases h

/-- Auxiliary for C6, second half: the `unpack` loop preserves the
invariant that the written circuits are pairwise distinct and all
recorded in the seen-set, so a completed run yields pairwise distinct
circuit texts. -/
theorem unpack_done_nodup (nc nq : Nat) (draws : Nat → List Gate) :
    ∀ (fuel : Nat) (s : UnpackState) (ws : List String),
      s.written.Nodup → (∀ x ∈ s.written, x ∈ s.seen) →
      unpackLoop nc nq draws fuel s = .done ws → ws.Nodup := by
  intro fuel
  induction fuel with
  | zero =>
    intro s ws _ _ h
    cases h
  | succ n ih =>
    intro s ws hnd hsub h
    rw [unpackLoop] at h
    cases hrc : random_circuit nq (draws s.idx) with
    | abort =>
      rw [hrc] at h
      cases h
    | ret o =>
      rw [hrc] at h
      cases o with
      | none =>
        dsimp only at h
        exact ih { s with idx := s.idx + 1 } ws hnd hsub h
      | some qasm =>
        dsimp only at h
        split at h
        · split at h
          · cases h
          · exact ih { s with n_iter := s.n_iter + 1, idx := s.idx + 1 } ws
              hnd hsub h
        · rename_i hnotseen
          split at h
          · cases h
            refine List.Nodup.append hnd (List.nodup_singleton qasm) ?_
            intro x hx hx1
            rw [List.mem_singleton] at hx1
            subst hx1
            exact hnotseen (hsub x hx)
          · split at h
            · cases h
            · refine ih _ _ ?_ ?_ h
              · refine List.Nodup.append hnd (List.nodup_singleton qasm) ?_
                intro x hx hx1
                rw [List.mem_singleton] at hx1
                subst hx1
                exact hnotseen (hsub x hx)
              · intro x hx
                rcases List.mem_append.mp hx with h1 | h1
                · exact List.mem_cons_of_mem _ (hsub x h1)
                · rw [List.mem_singleton] at h1
                  subst h1
                  exact List.mem_cons_self _ _

/-- C6: every circuit accepted by `random_circuit` (a `Some` return) has
all `n_qubits` qubits in a single connected component of the graph whose
edges are the circuit's CX gates; and every completed `unpack()` run
yields pairwise textually distinct written circuits. -/
theorem c6_connected_and_distinct :
    (∀ (n_qubits : Nat) (gates : List Gate) (q : String),
      random_circuit n_qubits gates = .ret (some q) →
      ConnectedOn n_qubits (cxEdges gates)) ∧
    (∀ (nc nq fuel : Nat) (draws : Nat → List Gate) (ws : List String),
      unpackLoop nc nq draws fuel initState = .done ws → ws.Nodup) := by
  constructor
  · exact random_circuit_connected
  · intro nc nq fuel draws ws h
    exact unpack_done_nodup nc nq draws fuel initState ws
      List.nodup_nil (by intro x hx; cases hx) h

/-- C6 witness: the circuit with the single gate `cx q[0],q[1]` over two
qubits is accepted, its CX graph connects both qubits, and the one-circuit
`unpack` run writing it yields a duplicate-free list. -/
theorem c6_connected_and_distinct_witness :
    ConnectedOn 2 (cxEdges [Gate.Cx 0 1]) ∧
    ([qasmHeader 2 ++ "cx q[0],q[1];\n"] : List String).Nodup :=
  ⟨c6_connected_and_distinct.1 2 [Gate.Cx 0 1]
      (qasmHeader 2 ++ "cx q[0],q[1];\n") rfl,
   c6_connected_and_distinct.2 1 2 1 (fun _ => [Gate.Cx 0 1])
      [qasmHeader 2 ++ "cx q[0],q[1];\n"] (by decide)⟩

end Spec2Proof
